import Mathlib

/-
Verification development for the traffic-intersection simulator
(src/traffic_simulation.py, with the channel producer in src/new.py).

Modelling conventions:
* Python coordinates, speeds and timestamps are exact rationals (`ℚ`);
  all arithmetic in the relevant routines is addition, subtraction,
  multiplication and halving of integer-valued quantities, so `ℚ` is exact.
* The source compares `distance = (dx*dx + dy*dy) ** 0.5` against the
  positive bound `min_distance`; since both sides are nonnegative, the
  comparison `distance < min_distance` is embedded as
  `dx*dx + dy*dy < min_distance ^ 2`.  The source's companion comparison
  `distance > -min_distance` is between a nonnegative square root and a
  negative number, hence always true; it is embedded as the corresponding
  always-true disjunct (see `Vehicle.check_collision`).
* Python `==` between `Vehicle` objects is object identity; it is
  approximated by structural equality, and every concrete input used in a
  theorem below consists of pairwise structurally distinct vehicles.
* Rendering (pygame drawing), the analytics dictionary and the Flask
  endpoints are pure output and are not part of any claim; they are
  omitted.  `Simulation.update_analytics` and `calculate_signal_phase`
  are never invoked by `Simulation.run`, which the theorems below make
  explicit where a claim depends on it.
-/

namespace TrafficSim

/-- `WINDOW_WIDTH` from the source. -/
def WINDOW_WIDTH : ℚ := 800

/-- `WINDOW_HEIGHT` from the source. -/
def WINDOW_HEIGHT : ℚ := 800

/-- `ROAD_WIDTH` from the source. -/
def ROAD_WIDTH : ℚ := 100

/-- `MIN_VEHICLE_SPACING` from the source. -/
def MIN_VEHICLE_SPACING : ℚ := 50

/-- `SIGNAL_MIN_TIME` from the source (seconds). -/
def SIGNAL_MIN_TIME : ℚ := 10

/-- `SIGNAL_MAX_TIME` from the source (seconds). -/
def SIGNAL_MAX_TIME : ℚ := 45

/-- `YELLOW_TIME` from the source (seconds). -/
def YELLOW_TIME : ℚ := 3

/-- Travel direction of a vehicle (`'up' | 'down' | 'left' | 'right'`). -/
inductive Direction
  | up
  | down
  | left
  | right
deriving DecidableEq

/-- Orientation of an approach: the `'horizontal' | 'vertical'` strings used
both for `TrafficLight.direction` and for `Simulation.current_phase`. -/
inductive Orientation
  | horizontal
  | vertical
deriving DecidableEq

/-- Traffic-light lamp state (`'red' | 'yellow' | 'green'`). -/
inductive LightState
  | red
  | yellow
  | green
deriving DecidableEq

/-- The non-emergency vehicle categories of `VEHICLE_TYPES`
(emergency categories are never spawned by the simulation). -/
inductive VehicleType
  | car
  | bus
  | truck
deriving DecidableEq

/-- `VEHICLE_TYPES[t]['length']`. -/
def typeLength : VehicleType → ℚ
  | .car => 40
  | .bus => 60
  | .truck => 55

/-- `VEHICLE_TYPES[t]['width']`. -/
def typeWidth : VehicleType → ℚ
  | .car => 20
  | .bus => 25
  | .truck => 25

/-- `VEHICLE_TYPES[t]['speed']`. -/
def typeSpeed : VehicleType → ℚ
  | .car => 3
  | .bus => 2
  | .truck => 2

/-- `TrafficLight.__init__`: position, governed orientation, lamp state,
timer fields.  The drawing routine is omitted (pure rendering); the
`color` field of vehicles is likewise omitted below. -/
structure TrafficLight where
  position : ℚ × ℚ
  direction : Orientation
  state : LightState := .red
  timer : ℚ := 0
  changing : Bool := false
  time_to_change : ℚ := 0
deriving DecidableEq

/-- `Vehicle.__init__`: the mutable state of one vehicle.  `length`,
`width` and `speed` are copied out of `VEHICLE_TYPES` at construction
(see `Vehicle.init`); `color` is rendering-only and omitted. -/
structure Vehicle where
  x : ℚ
  y : ℚ
  direction : Direction
  vehicle_type : VehicleType
  stopped : Bool
  length : ℚ
  width : ℚ
  speed : ℚ
  waiting_time : ℕ
deriving DecidableEq

/-- `Vehicle.__init__(x, y, direction, vehicle_type)`. -/
def Vehicle.init (x y : ℚ) (direction : Direction) (vehicle_type : VehicleType) : Vehicle :=
  { x := x
    y := y
    direction := direction
    vehicle_type := vehicle_type
    stopped := false
    length := typeLength vehicle_type
    width := typeWidth vehicle_type
    speed := typeSpeed vehicle_type
    waiting_time := 0 }

/-- The loop body of `Vehicle.should_stop` for a single light: stop when the
light is red, it governs this vehicle's axis, and the vehicle is inside the
100-unit window before the light along its travel axis. -/
def Vehicle.stops_for (self : Vehicle) (light : TrafficLight) : Bool :=
  if light.state = .red then
    if (self.direction = .left ∨ self.direction = .right) ∧ light.direction = .horizontal then
      if self.direction = .right ∧ self.x < light.position.1 ∧ self.x > light.position.1 - 100 then
        true
      else if self.direction = .left ∧ self.x > light.position.1 ∧ self.x < light.position.1 + 100 then
        true
      else
        false
    else if (self.direction = .up ∨ self.direction = .down) ∧ light.direction = .vertical then
      if self.direction = .down ∧ self.y < light.position.2 ∧ self.y > light.position.2 - 100 then
        true
      else if self.direction = .up ∧ self.y > light.position.2 ∧ self.y < light.position.2 + 100 then
        true
      else
        false
    else
      false
  else
    false

/-- `Vehicle.should_stop`: the `for light in traffic_lights: ... return True`
loop is `List.any` of the per-light body `stops_for`. -/
def Vehicle.should_stop (self : Vehicle) (traffic_lights : List TrafficLight) : Bool :=
  traffic_lights.any self.stops_for

/-- `Vehicle.is_at_intersection`: both coordinate offsets from the window
center are below `intersection_size = ROAD_WIDTH * 2` in absolute value. -/
def Vehicle.is_at_intersection (self : Vehicle) : Bool :=
  let intersection_x := WINDOW_WIDTH / 2
  let intersection_y := WINDOW_HEIGHT / 2
  let intersection_size := ROAD_WIDTH * 2
  decide (|self.x - intersection_x| < intersection_size ∧
          |self.y - intersection_y| < intersection_size)

/-- The squared center-to-center distance `dx*dx + dy*dy` of
`Vehicle.check_collision` (the source then takes `** 0.5`). -/
def distSq (self other : Vehicle) : ℚ :=
  (self.x - other.x) * (self.x - other.x) + (self.y - other.y) * (self.y - other.y)

/-- `min_distance = MIN_VEHICLE_SPACING + (self.length + other.length) / 2`
from `Vehicle.check_collision`. -/
def min_distance (self other : Vehicle) : ℚ :=
  MIN_VEHICLE_SPACING + (self.length + other.length) / 2

/-- `Vehicle.check_collision`.  The guard `other == self` (object identity in
Python) is structural equality here.  `distance < min_distance` is embedded
squared; in the same-direction branch the source tests
`(direction in [right, down] and distance < min_distance) or
 (direction in [left, up] and distance > -min_distance)`, and the second
comparison — a nonnegative square root against a negative bound — is the
always-true second conjunct written literally as `True`. -/
def Vehicle.check_collision (self : Vehicle) (other_vehicles : List Vehicle) : Bool :=
  other_vehicles.any fun other =>
    if other = self then
      false
    else if distSq self other < min_distance self other ^ 2 then
      if self.direction = other.direction then
        if ((self.direction = .right ∨ self.direction = .down) ∧
              distSq self other < min_distance self other ^ 2) ∨
           ((self.direction = .left ∨ self.direction = .up) ∧ True) then
          true
        else
          false
      else if self.is_at_intersection && other.is_at_intersection then
        true
      else
        false
    else
      false

/-- `Vehicle.move`: stop (flag, waiting time) or advance one tick.  The
source mutates only `self`'s own attributes — no other vehicle or light is
touched — so the embedding returns just the updated vehicle. -/
def Vehicle.move (self : Vehicle) (traffic_lights : List TrafficLight)
    (other_vehicles : List Vehicle) : Vehicle :=
  if self.should_stop traffic_lights || self.check_collision other_vehicles then
    { self with stopped := true, waiting_time := self.waiting_time + 1 }
  else
    let s := { self with stopped := false, waiting_time := 0 }
    match self.direction with
    | .right => { s with x := s.x + s.speed }
    | .left => { s with x := s.x - s.speed }
    | .up => { s with y := s.y - s.speed }
    | .down => { s with y := s.y + s.speed }

/-- A published frame.  In the source a frame is the rendered numpy image
(`Simulation.get_frame`); the claims only need frame identity, so frames
are abstract tokens. -/
abbrev Frame := ℕ

/-- Which half of the window a vehicle is on, for `count_vehicles`. -/
inductive Side
  | left
  | right
deriving DecidableEq

/-- The mutable `Simulation` state touched by the loop: vehicles, lights,
phase machine registers, the two capacity-1 queues and the emergency list.
The pygame screen/clock, the analytics dictionary and `emergency_mode` are
rendering/reporting-only and not read by any routine modelled here. -/
structure SimState where
  vehicles : List Vehicle
  trafficLights : List TrafficLight
  currentPhase : Orientation
  phaseStartTime : ℚ
  yellowStartTime : ℚ
  switchingPhase : Bool
  frameQueue : Option Frame
  trafficDecisionQueue : Option String
  emergencyVehicles : List Vehicle
  vehicleCounts : VehicleType → Side → ℕ

/-- The four lights of `Simulation.__init__` (window 800×800, road 100). -/
def initLights : List TrafficLight :=
  [ { position := (WINDOW_WIDTH / 2 - ROAD_WIDTH, WINDOW_HEIGHT / 2 - ROAD_WIDTH),
      direction := .horizontal }
  , { position := (WINDOW_WIDTH / 2 + ROAD_WIDTH, WINDOW_HEIGHT / 2 + ROAD_WIDTH),
      direction := .horizontal }
  , { position := (WINDOW_WIDTH / 2 - ROAD_WIDTH, WINDOW_HEIGHT / 2 + ROAD_WIDTH),
      direction := .vertical }
  , { position := (WINDOW_WIDTH / 2 + ROAD_WIDTH, WINDOW_HEIGHT / 2 - ROAD_WIDTH),
      direction := .vertical } ]

/-- `Simulation.__init__`, parameterised by the wall-clock time `t0` at
which `time.time()` is sampled for `phase_start_time`. -/
def initState (t0 : ℚ) : SimState :=
  { vehicles := []
    trafficLights := initLights
    currentPhase := .horizontal
    phaseStartTime := t0
    yellowStartTime := 0
    switchingPhase := false
    frameQueue := none
    trafficDecisionQueue := none
    emergencyVehicles := []
    vehicleCounts := fun _ _ => 0 }

/-- Manhattan distance to the intersection center, the `key` of the `min`
in `Simulation.handle_emergency_vehicle`. -/
def manhattanToCenter (v : Vehicle) : ℚ :=
  |v.x - WINDOW_WIDTH / 2| + |v.y - WINDOW_HEIGHT / 2|

/-- Python's `min(list, key=...)`: the first element attaining the minimum
key, as a left fold keeping the earlier element on ties. -/
def argminManhattan (v : Vehicle) (vs : List Vehicle) : Vehicle :=
  vs.foldl (fun best u => if manhattanToCenter u < manhattanToCenter best then u else best) v

/-- `Simulation.handle_emergency_vehicle`: `none` models the `False` the
source returns on an empty list (callers only use the result when the list
is non-empty); otherwise the orientation needed by the closest emergency
vehicle. -/
def handle_emergency_vehicle (s : SimState) : Option Orientation :=
  match s.emergencyVehicles with
  | [] => none
  | v :: vs =>
      let closest := argminManhattan v vs
      if closest.direction = .left ∨ closest.direction = .right then
        some .horizontal
      else
        some .vertical

/-- `Simulation.calculate_signal_phase`, at wall-clock time `now`.  The
source both mutates `self` (switching flag, timestamps) and `return`s a
phase; the embedding returns the pair (updated state, returned phase).
`1.2` is the exact rational `6/5` (the source's float rounding of `1.2` is
immaterial to every claim below, none of which exercises the 20% margin). -/
def calculate_signal_phase (s : SimState) (now : ℚ) : SimState × Orientation :=
  if s.switchingPhase then
    if now - s.yellowStartTime ≥ YELLOW_TIME then
      ({ s with switchingPhase := false, phaseStartTime := now },
        if s.currentPhase = .horizontal then .vertical else .horizontal)
    else
      (s, s.currentPhase)
  else if s.emergencyVehicles ≠ [] then
    if handle_emergency_vehicle s ≠ some s.currentPhase then
      ({ s with switchingPhase := true, yellowStartTime := now }, s.currentPhase)
    else
      (s, s.currentPhase)
  else
    let horizontal_vehicles :=
      (s.vehicles.filter fun v => v.direction = .left ∨ v.direction = .right).length
    let vertical_vehicles :=
      (s.vehicles.filter fun v => v.direction = .up ∨ v.direction = .down).length
    let horizontal_waiting :=
      (s.vehicles.filter fun v =>
        (v.direction = .left ∨ v.direction = .right) ∧ v.waiting_time > 0).length
    let vertical_waiting :=
      (s.vehicles.filter fun v =>
        (v.direction = .up ∨ v.direction = .down) ∧ v.waiting_time > 0).length
    let horizontal_score : ℚ := horizontal_vehicles + horizontal_waiting * 2
    let vertical_score : ℚ := vertical_vehicles + vertical_waiting * 2
    let phase_duration := now - s.phaseStartTime
    let should_switch :=
      if phase_duration > SIGNAL_MAX_TIME then
        true
      else if phase_duration > SIGNAL_MIN_TIME then
        if s.currentPhase = .horizontal ∧ vertical_score > horizontal_score * (6 / 5) then
          true
        else if s.currentPhase = .vertical ∧ horizontal_score > vertical_score * (6 / 5) then
          true
        else
          false
      else
        false
    if should_switch then
      ({ s with switchingPhase := true, yellowStartTime := now }, s.currentPhase)
    else
      (s, s.currentPhase)

/-- The per-light update of `Simulation.update_traffic_lights`: all yellow
while switching, else green for the orientation equal to the current phase
and red for the other, with the common countdown `ttc`. -/
def updatedLight (switching : Bool) (phase : Orientation) (ttc : ℚ)
    (light : TrafficLight) : TrafficLight :=
  if switching then
    { light with state := .yellow, time_to_change := ttc }
  else if light.direction = phase then
    { light with state := .green, time_to_change := ttc }
  else
    { light with state := .red, time_to_change := ttc }

/-- The `time_to_change` computed by `Simulation.update_traffic_lights`. -/
def timeToChange (s : SimState) (now : ℚ) : ℚ :=
  let phase_duration := now - s.phaseStartTime
  if s.switchingPhase then
    YELLOW_TIME - (now - s.yellowStartTime)
  else if phase_duration > SIGNAL_MIN_TIME then
    SIGNAL_MAX_TIME - phase_duration
  else
    SIGNAL_MIN_TIME - phase_duration

/-- `Simulation.update_traffic_lights` at wall-clock time `now`.  The
source's `try/except` guard is dead in this model: none of the embedded
arithmetic can raise. -/
def update_traffic_lights (s : SimState) (now : ℚ) : SimState :=
  { s with trafficLights :=
      s.trafficLights.map (updatedLight s.switchingPhase s.currentPhase (timeToChange s now)) }

/-- Spawn coordinates per direction from `Simulation.spawn_vehicle`
(`//` on these even constants is exact division). -/
def spawnPoint : Direction → ℚ × ℚ
  | .right => (-50, WINDOW_HEIGHT / 2 - ROAD_WIDTH / 2)
  | .left => (WINDOW_WIDTH + 50, WINDOW_HEIGHT / 2 + ROAD_WIDTH / 2)
  | .up => (WINDOW_WIDTH / 2 + ROAD_WIDTH / 2, WINDOW_HEIGHT + 50)
  | .down => (WINDOW_WIDTH / 2 - ROAD_WIDTH / 2, -50)

/-- `Simulation.spawn_vehicle` with the randomness supplied as an oracle:
`none` when the 5% coin declines, otherwise the chosen direction and
weighted category.  The clear-area rejection (any existing vehicle within
`MIN_VEHICLE_SPACING` of the spawn point, distance compared squared) is
kept from the source. -/
def spawn_vehicle (vehicles : List Vehicle)
    (choice : Option (Direction × VehicleType)) : List Vehicle :=
  match choice with
  | none => vehicles
  | some (dir, vtype) =>
      let p := spawnPoint dir
      if vehicles.any fun v =>
          (v.x - p.1) * (v.x - p.1) + (v.y - p.2) * (v.y - p.2)
            < MIN_VEHICLE_SPACING ^ 2 then
        vehicles
      else
        vehicles ++ [Vehicle.init p.1 p.2 dir vtype]

/-- The off-screen cull of `Simulation.run`: coordinate more than 100 units
beyond the window on any side. -/
def outOfBounds (v : Vehicle) : Bool :=
  decide (v.x < -100 ∨ v.x > WINDOW_WIDTH + 100 ∨ v.y < -100 ∨ v.y > WINDOW_HEIGHT + 100)

/-- The vehicle-update loop of `Simulation.run`: each vehicle in turn moves
against the current list of all *other* vehicles (earlier ones already
moved, later ones not yet — the source mutates the list in place), and is
dropped when out of bounds.  `done` holds the already-processed survivors. -/
def moveVehicles (lights : List TrafficLight) :
    List Vehicle → List Vehicle → List Vehicle
  | done, [] => done
  | done, v :: todo =>
      let v2 := v.move lights (done ++ todo)
      if outOfBounds v2 then
        moveVehicles lights done todo
      else
        moveVehicles lights (done ++ [v2]) todo

/-- `Simulation.count_vehicles`: vehicles left of the window midline count
as `left`, the rest as `right`. -/
def countSide (vehicles : List Vehicle) (t : VehicleType) (side : Side) : ℕ :=
  (vehicles.filter fun v =>
    v.vehicle_type = t ∧ (if v.x < WINDOW_WIDTH / 2 then Side.left else Side.right) = side).length

/-- The frame publication of `Simulation.run`:
`if self.frame_queue.empty(): self.frame_queue.put_nowait(frame)`.
A full slot keeps its old occupant; the new frame is dropped. -/
def framePut (q : Option Frame) (f : Frame) : Option Frame :=
  match q with
  | none => some f
  | some g => some g

/-- `frame_queue.get()` as performed by the consumer in `new.py`:
returns the slot content and the emptied slot. -/
def frameGet (q : Option Frame) : Option Frame × Option Frame :=
  (q, none)

/-- The per-tick inputs `Simulation.run` draws from its environment:
the `time.time()` sample, the spawn randomness and the rendered frame. -/
structure TickInput where
  now : ℚ
  spawned : Option (Direction × VehicleType)
  frame : Frame

/-- One iteration of the `while running` loop of `Simulation.run`:
spawn, update lights, move/cull vehicles, recount, publish the frame.
The body contains no call to `calculate_signal_phase` and no read of
`traffic_decision_queue`; drawing and `clock.tick(60)` are pure output. -/
def runStep (s : SimState) (i : TickInput) : SimState :=
  let s1 := { s with vehicles := spawn_vehicle s.vehicles i.spawned }
  let s2 := update_traffic_lights s1 i.now
  let s3 := { s2 with vehicles := moveVehicles s2.trafficLights [] s2.vehicles }
  let s4 := { s3 with vehicleCounts := fun t side => countSide s3.vehicles t side }
  { s4 with frameQueue := framePut s4.frameQueue i.frame }

/-- States reachable by the simulation loop from `Simulation.__init__`
at start time `t0`, under arbitrary tick inputs. -/
inductive Reachable (t0 : ℚ) : SimState → Prop
  | init : Reachable t0 (initState t0)
  | step (s : SimState) (i : TickInput) : Reachable t0 s → Reachable t0 (runStep s i)

/-- `runStep` publishes light updates computed by `updatedLight` over the
pre-tick lights; every later stage of the tick leaves the lights alone. -/
theorem runStep_lights (s : SimState) (i : TickInput) :
    (runStep s i).trafficLights =
      s.trafficLights.map
        (updatedLight s.switchingPhase s.currentPhase
          (timeToChange { s with vehicles := spawn_vehicle s.vehicles i.spawned } i.now)) :=
  rfl

/-- C1: the claim asserts that a loop tick taken in `YELLOW_TRANSITION`
with `YELLOW_TIME` elapsed flips the phase, resets the phase-start time and
clears the switching flag.  The body of `Simulation.run` never calls
`calculate_signal_phase`, and the phase that routine returns is never
assigned back to `current_phase` anywhere in the repository; so although
the routine itself would clear the flag and hand back the opposite phase
(first two conjuncts), the tick leaves the phase and the switching flag
untouched (last two conjuncts). -/
theorem run_tick_ignores_elapsed_yellow :
    ((calculate_signal_phase
        { initState 0 with switchingPhase := true, yellowStartTime := 0 } 5).2
      = Orientation.vertical) ∧
    ((calculate_signal_phase
        { initState 0 with switchingPhase := true, yellowStartTime := 0 } 5).1.switchingPhase
      = false) ∧
    ((runStep { initState 0 with switchingPhase := true, yellowStartTime := 0 }
        ⟨5, none, 0⟩).currentPhase = Orientation.horizontal) ∧
    ((runStep { initState 0 with switchingPhase := true, yellowStartTime := 0 }
        ⟨5, none, 0⟩).switchingPhase = true) := by
  refine ⟨?_, ?_, rfl, rfl⟩ <;>
    norm_num [calculate_signal_phase, initState, YELLOW_TIME]

/-- C2: the claim asserts that a loop tick with no transition in flight, no
emergency pending and more than `SIGNAL_MAX_TIME` elapsed initiates a
transition.  From the initial state, a tick at `now = 46` (elapsed 46 s)
leaves the switching flag clear, because `Simulation.run` never invokes
`calculate_signal_phase`; the final conjunct shows that routine, had it
been invoked there, would indeed have set the flag. -/
theorem run_tick_ignores_max_time :
    ((initState 0).switchingPhase = false) ∧
    ((initState 0).emergencyVehicles = []) ∧
    ((46 : ℚ) - (initState 0).phaseStartTime > SIGNAL_MAX_TIME) ∧
    ((runStep (initState 0) ⟨46, none, 0⟩).switchingPhase = false) ∧
    ((calculate_signal_phase (initState 0) 46).1.switchingPhase = true) := by
  refine ⟨rfl, rfl, ?_, rfl, ?_⟩ <;>
    norm_num [calculate_signal_phase, initState, SIGNAL_MAX_TIME, SIGNAL_MIN_TIME, YELLOW_TIME]

/-- C3: the claim asserts that a tick taken while the decision-in slot
holds `"vertical"`, the phase is horizontal and no transition is in flight
consumes the decision and enters `YELLOW_TRANSITION`.  `Simulation.run`
contains no read of `traffic_decision_queue` (the queue has no consumer in
the repository), so the tick leaves the slot full and the switching flag
clear. -/
theorem run_tick_ignores_decision_queue :
    (({ initState 0 with trafficDecisionQueue := some "vertical" } : SimState).currentPhase
      = Orientation.horizontal) ∧
    (({ initState 0 with trafficDecisionQueue := some "vertical" } : SimState).switchingPhase
      = false) ∧
    ((runStep { initState 0 with trafficDecisionQueue := some "vertical" }
        ⟨1, none, 0⟩).trafficDecisionQueue = some "vertical") ∧
    ((runStep { initState 0 with trafficDecisionQueue := some "vertical" }
        ⟨1, none, 0⟩).switchingPhase = false) := by
  refine ⟨rfl, rfl, rfl, rfl⟩

/-- C4 (amended): the frame-out slot keeps its *first* occupant: a second
publish while the slot is still full is dropped (`run` only puts when
`frame_queue.empty()`), so a consumer that reads once after two
publications observes the first snapshot. -/
theorem frame_channel_keeps_first (f1 f2 : Frame) :
    (frameGet (framePut (framePut none f1) f2)).1 = some f1 :=
  rfl

/-- C4 counterexample: with two distinct snapshots published and no read in
between, the consumer's single read does *not* observe the second
(most recent) snapshot, contrary to the claim's freshest-frame-wins
semantics. -/
theorem frame_channel_drops_second :
    (0 : Frame) ≠ 1 ∧ (frameGet (framePut (framePut none (0 : Frame)) 1)).1 ≠ some 1 := by
  decide

/-- C10: in every state the simulation loop can reach from the initial
state, the phase is still `'horizontal'` and the switching flag is still
clear — the loop body never invokes `calculate_signal_phase`, and the phase
that routine returns is never assigned back, so the phase state machine
never leaves its initial configuration. -/
theorem reachable_phase_frozen (t0 : ℚ) (s : SimState) (h : Reachable t0 s) :
    s.currentPhase = Orientation.horizontal ∧ s.switchingPhase = false := by
  induction h with
  | init => exact ⟨rfl, rfl⟩
  | step s i _ ih => exact ih

/-- Closed instance of `reachable_phase_frozen` at the initial state. -/
theorem reachable_phase_frozen_witness :
    (initState 0).currentPhase = Orientation.horizontal ∧
    (initState 0).switchingPhase = false :=
  reachable_phase_frozen 0 (initState 0) Reachable.init

/-- `updatedLight` characterised: common countdown aside, it recolors the
lamp from the switching flag / phase and keeps the light's orientation. -/
theorem updatedLight_fields (sw : Bool) (phase : Orientation) (ttc : ℚ) (l : TrafficLight) :
    (updatedLight sw phase ttc l).state =
      (if sw then .yellow else if l.direction = phase then .green else .red) ∧
    (updatedLight sw phase ttc l).direction = l.direction := by
  unfold updatedLight
  split_ifs <;> exact ⟨rfl, rfl⟩

/-- C7: after the light update of any tick, lights sharing an orientation
have identical state; the two orientations are never both green; while
switching everything is yellow, and otherwise a light is green exactly when
its orientation is the current phase. -/
theorem updated_lights_consistent (s : SimState) (i : TickInput)
    (l1 l2 : TrafficLight)
    (h1 : l1 ∈ (runStep s i).trafficLights) (h2 : l2 ∈ (runStep s i).trafficLights) :
    (l1.direction = l2.direction → l1.state = l2.state) ∧
    ¬(l1.state = .green ∧ l2.state = .green ∧ l1.direction ≠ l2.direction) ∧
    (s.switchingPhase = true → l1.state = .yellow) ∧
    (s.switchingPhase = false → (l1.state = .green ↔ l1.direction = s.currentPhase)) := by
  rw [runStep_lights] at h1 h2
  obtain ⟨a, -, rfl⟩ := List.mem_map.mp h1
  obtain ⟨b, -, rfl⟩ := List.mem_map.mp h2
  obtain ⟨ha1, ha2⟩ := updatedLight_fields s.switchingPhase s.currentPhase
    (timeToChange { s with vehicles := spawn_vehicle s.vehicles i.spawned } i.now) a
  obtain ⟨hb1, hb2⟩ := updatedLight_fields s.switchingPhase s.currentPhase
    (timeToChange { s with vehicles := spawn_vehicle s.vehicles i.spawned } i.now) b
  rw [ha1, ha2, hb1, hb2]
  split_ifs with hsw hda hdb hdb <;> simp_all
  exact fun h => hdb h.symm

/-- A light of the initial configuration, as recolored by the first tick
(phase horizontal, not switching, countdown `SIGNAL_MIN_TIME`). -/
def firstTickGreenLight : TrafficLight :=
  { position := (WINDOW_WIDTH / 2 - ROAD_WIDTH, WINDOW_HEIGHT / 2 - ROAD_WIDTH)
    direction := .horizontal
    state := .green
    timer := 0
    changing := false
    time_to_change := 10 }

/-- Closed instance of `updated_lights_consistent`: the first light of the
initial state, one tick in (green, since the phase is horizontal). -/
theorem updated_lights_consistent_witness :
    (firstTickGreenLight.direction = firstTickGreenLight.direction →
      firstTickGreenLight.state = firstTickGreenLight.state) ∧
    ¬(firstTickGreenLight.state = .green ∧ firstTickGreenLight.state = .green ∧
      firstTickGreenLight.direction ≠ firstTickGreenLight.direction) ∧
    ((initState 0).switchingPhase = true → firstTickGreenLight.state = .yellow) ∧
    ((initState 0).switchingPhase = false →
      (firstTickGreenLight.state = .green ↔
        firstTickGreenLight.direction = (initState 0).currentPhase)) :=
  updated_lights_consistent (initState 0) ⟨0, none, 0⟩ _ _
    (by norm_num [runStep_lights, initState, initLights, updatedLight, timeToChange,
      firstTickGreenLight, spawn_vehicle, SIGNAL_MIN_TIME, SIGNAL_MAX_TIME, YELLOW_TIME,
      WINDOW_WIDTH, WINDOW_HEIGHT, ROAD_WIDTH])
    (by norm_num [runStep_lights, initState, initLights, updatedLight, timeToChange,
      firstTickGreenLight, spawn_vehicle, SIGNAL_MIN_TIME, SIGNAL_MAX_TIME, YELLOW_TIME,
      WINDOW_WIDTH, WINDOW_HEIGHT, ROAD_WIDTH])

/-- The squared distance of `check_collision` is symmetric in the pair. -/
theorem distSq_comm (a b : Vehicle) : distSq a b = distSq b a := by
  unfold distSq
  ring

/-- `min_distance` is symmetric in the pair. -/
theorem min_distance_comm (a b : Vehicle) : min_distance a b = min_distance b a := by
  unfold min_distance
  ring

/-- One unsafe same-direction neighbour makes `check_collision` report a
conflict, whichever of the two vehicles asks: the source's directional-sign
test is satisfied by every direction. -/
theorem check_collision_same_dir (self other : Vehicle)
    (hne : other ≠ self) (hdir : self.direction = other.direction)
    (hclose : distSq self other < min_distance self other ^ 2) :
    self.check_collision [other] = true := by
  have hcond : ((self.direction = .right ∨ self.direction = .down) ∧
        distSq self other < min_distance self other ^ 2) ∨
      ((self.direction = .left ∨ self.direction = .up) ∧ True) := by
    cases hd : self.direction
    · exact Or.inr ⟨Or.inr rfl, trivial⟩
    · exact Or.inl ⟨Or.inr rfl, hclose⟩
    · exact Or.inr ⟨Or.inl rfl, trivial⟩
    · exact Or.inl ⟨Or.inl rfl, hclose⟩
  unfold Vehicle.check_collision
  simp only [List.any_cons, List.any_nil, Bool.or_false]
  rw [if_neg hne, if_pos hclose, if_pos hdir, if_pos hcond]

/-- C5 (amended): in an unsafe same-direction pair *both* vehicles report a
collision conflict — the trailing one, as the claim says, but also the
leading one, because the source's sign test
(`distance < min_distance` for right/down, `distance > -min_distance` for
left/up) is vacuously satisfied: the Euclidean distance is nonnegative. -/
theorem same_direction_both_report_conflict (v1 v2 : Vehicle)
    (hne : v1 ≠ v2) (hdir : v1.direction = v2.direction)
    (hclose : distSq v1 v2 < min_distance v1 v2 ^ 2) :
    v1.check_collision [v2] = true ∧ v2.check_collision [v1] = true := by
  refine ⟨check_collision_same_dir v1 v2 (Ne.symm hne) hdir hclose, ?_⟩
  refine check_collision_same_dir v2 v1 hne hdir.symm ?_
  rw [distSq_comm v2 v1, min_distance_comm v2 v1]
  exact hclose

/-- Closed instance of `same_direction_both_report_conflict`: two cars
heading right, 60 units apart (bound `50 + 40 = 90`). -/
theorem same_direction_both_report_conflict_witness :
    (Vehicle.init 0 350 .right .car).check_collision [Vehicle.init 60 350 .right .car] = true ∧
    (Vehicle.init 60 350 .right .car).check_collision [Vehicle.init 0 350 .right .car] = true :=
  same_direction_both_report_conflict (Vehicle.init 0 350 .right .car)
    (Vehicle.init 60 350 .right .car)
    (by norm_num [Vehicle.init])
    (by norm_num [Vehicle.init])
    (by norm_num [Vehicle.init, distSq, min_distance, MIN_VEHICLE_SPACING, typeLength])

/-- C5 counterexample: the *leading* vehicle of an unsafe same-direction
pair (larger `x`, direction `right`) also reports a conflict, contradicting
the claim that only the trailing vehicle does. -/
theorem leading_vehicle_reports_conflict :
    (Vehicle.init 60 350 .right .car).x > (Vehicle.init 0 350 .right .car).x ∧
    (Vehicle.init 60 350 .right .car).direction = .right ∧
    (Vehicle.init 60 350 .right .car).check_collision [Vehicle.init 0 350 .right .car] = true := by
  refine ⟨by norm_num [Vehicle.init], rfl, ?_⟩
  refine check_collision_same_dir _ _ ?_ rfl ?_
  · norm_num [Vehicle.init]
  · norm_num [Vehicle.init, distSq, min_distance, MIN_VEHICLE_SPACING, typeLength]

/-- C6 (amended): a conflict between vehicles travelling in different
directions is reported only when both are inside the source's intersection
box `is_at_intersection` — the square centered on the intersection whose
*half*-side is `2 × ROAD_WIDTH`, i.e. whose side is 4 times the road
width, not 2 times as the claim states. -/
theorem cross_direction_conflict_inside_code_box (v1 v2 : Vehicle)
    (hdir : v1.direction ≠ v2.direction)
    (hc : v1.check_collision [v2] = true) :
    v1.is_at_intersection = true ∧ v2.is_at_intersection = true := by
  unfold Vehicle.check_collision at hc
  simp only [List.any_cons, List.any_nil, Bool.or_false] at hc
  by_cases h0 : v2 = v1
  · rw [if_pos h0] at hc
    exact absurd hc (by simp)
  rw [if_neg h0] at hc
  by_cases h1 : distSq v1 v2 < min_distance v1 v2 ^ 2
  · rw [if_pos h1, if_neg hdir] at hc
    by_cases h2 : (v1.is_at_intersection && v2.is_at_intersection) = true
    · exact Bool.and_eq_true_iff.mp h2
    · rw [if_neg h2] at hc
      exact absurd hc (by simp)
  · rw [if_neg h1] at hc
    exact absurd hc (by simp)

/-- Closed instance of `cross_direction_conflict_inside_code_box`:
a rightbound car and an upbound car crossing near the center. -/
theorem cross_direction_conflict_inside_code_box_witness :
    (Vehicle.init 390 400 .right .car).is_at_intersection = true ∧
    (Vehicle.init 400 390 .up .car).is_at_intersection = true :=
  cross_direction_conflict_inside_code_box
    (Vehicle.init 390 400 .right .car) (Vehicle.init 400 390 .up .car)
    (by decide)
    (by norm_num [Vehicle.check_collision, Vehicle.init, distSq, min_distance,
      Vehicle.is_at_intersection, MIN_VEHICLE_SPACING, typeLength,
      WINDOW_WIDTH, WINDOW_HEIGHT, ROAD_WIDTH])

/-- Modelled from the spec, for comparison with the source's
`is_at_intersection`: the claim's intersection bounding box, "a fixed
square centered on the intersection whose side equals 2 times the road
width" — both coordinate offsets from the center below `ROAD_WIDTH`
(half of the claimed side `2 × ROAD_WIDTH`) in absolute value. -/
def inIntersectionBoxSpec (v : Vehicle) : Bool :=
  decide (|v.x - WINDOW_WIDTH / 2| < ROAD_WIDTH ∧ |v.y - WINDOW_HEIGHT / 2| < ROAD_WIDTH)

/-- C6 counterexample: two vehicles with different directions, 150 units
east of the center — `check_collision` reports a conflict although the
first vehicle is outside the claim's side-`2 × ROAD_WIDTH` box, so "unsafe
only if both are inside the side-200 square" is false of the code. -/
theorem cross_direction_conflict_outside_spec_box :
    (Vehicle.init 550 400 .right .car).direction ≠ (Vehicle.init 550 401 .up .car).direction ∧
    (Vehicle.init 550 400 .right .car).check_collision [Vehicle.init 550 401 .up .car] = true ∧
    inIntersectionBoxSpec (Vehicle.init 550 400 .right .car) = false := by
  refine ⟨by decide, ?_, ?_⟩
  · norm_num [Vehicle.check_collision, Vehicle.init, distSq, min_distance,
      Vehicle.is_at_intersection, MIN_VEHICLE_SPACING, typeLength,
      WINDOW_WIDTH, WINDOW_HEIGHT, ROAD_WIDTH]
  · norm_num [inIntersectionBoxSpec, Vehicle.init, WINDOW_WIDTH, WINDOW_HEIGHT, ROAD_WIDTH]

/-- The claim's phrasing of "a light governing the vehicle's approach
orientation": horizontally moving vehicles answer to horizontal lights,
vertically moving ones to vertical lights. -/
def governs (light : TrafficLight) (v : Vehicle) : Prop :=
  ((v.direction = .left ∨ v.direction = .right) ∧ light.direction = .horizontal) ∨
  ((v.direction = .up ∨ v.direction = .down) ∧ light.direction = .vertical)

/-- The claim's signed look-ahead distance: how far the vehicle is before
the light's position along its travel axis (positive on the approaching
side). -/
def approachDist (v : Vehicle) (light : TrafficLight) : ℚ :=
  match v.direction with
  | .right => light.position.1 - v.x
  | .left => v.x - light.position.1
  | .down => light.position.2 - v.y
  | .up => v.y - light.position.2

/-- Per-light characterisation of the source's stop test: red, governing
orientation, and strictly within the 100-unit look-ahead window. -/
theorem stops_for_iff (v : Vehicle) (l : TrafficLight) :
    v.stops_for l = true ↔
      l.state = .red ∧ governs l v ∧ 0 < approachDist v l ∧ approachDist v l < 100 := by
  unfold Vehicle.stops_for governs approachDist
  cases hs : l.state <;> cases hd : v.direction <;> cases ho : l.direction <;>
      simp [hs, hd, ho]
  all_goals exact fun h => ⟨fun h2 => by linarith, fun h2 => by linarith⟩

/-- C8: `should_stop` holds exactly when some light is red, governs the
vehicle's approach orientation, and the vehicle lies strictly within 100
units before it on the approaching side; in particular a car 99 units
before a red horizontal light stops and one 101 units before it proceeds. -/
theorem should_stop_characterization :
    (∀ (v : Vehicle) (lights : List TrafficLight),
        v.should_stop lights = true ↔
          ∃ l ∈ lights, l.state = .red ∧ governs l v ∧
            0 < approachDist v l ∧ approachDist v l < 100) ∧
    (Vehicle.init 201 300 .right .car).should_stop
      [{ position := ((300 : ℚ), (300 : ℚ)), direction := .horizontal, state := .red }] = true ∧
    (Vehicle.init 199 300 .right .car).should_stop
      [{ position := ((300 : ℚ), (300 : ℚ)), direction := .horizontal, state := .red }] = false := by
  refine ⟨fun v lights => ?_, ?_, ?_⟩
  · rw [Vehicle.should_stop, List.any_eq_true]
    simp only [stops_for_iff]
  · norm_num [Vehicle.should_stop, Vehicle.stops_for, Vehicle.init]
  · norm_num [Vehicle.should_stop, Vehicle.stops_for, Vehicle.init]

/-- C9: in one `move` step a vehicle either stops — red light or collision
conflict — keeping its position and gaining one tick of waiting time, or
advances by exactly its nominal speed along its direction axis with waiting
time reset to zero; no field other than position, stopped flag and waiting
time changes (and the source's `move` touches no other vehicle or light). -/
theorem move_stop_or_advance (v : Vehicle) (lights : List TrafficLight)
    (others : List Vehicle) :
    ((v.should_stop lights || v.check_collision others) = true →
      v.move lights others = { v with stopped := true, waiting_time := v.waiting_time + 1 }) ∧
    ((v.should_stop lights || v.check_collision others) = false →
      (v.move lights others).stopped = false ∧
      (v.move lights others).waiting_time = 0 ∧
      (v.move lights others).x - v.x =
        (match v.direction with
          | .right => v.speed
          | .left => -v.speed
          | .up => 0
          | .down => 0) ∧
      (v.move lights others).y - v.y =
        (match v.direction with
          | .right => 0
          | .left => 0
          | .up => -v.speed
          | .down => v.speed) ∧
      (v.move lights others).direction = v.direction ∧
      (v.move lights others).vehicle_type = v.vehicle_type ∧
      (v.move lights others).length = v.length ∧
      (v.move lights others).width = v.width ∧
      (v.move lights others).speed = v.speed) := by
  constructor
  · intro h
    simp [Vehicle.move, h]
  · intro h
    cases hd : v.direction <;> simp [Vehicle.move, h, hd]

/-- Closed instance of `move_stop_or_advance`: a car blocked 50 units
before a red horizontal light stops and waits; the same car with no lights
and no neighbours advances by its speed 3. -/
theorem move_stop_or_advance_witness :
    (Vehicle.init 250 350 .right .car).move
        [{ position := ((300 : ℚ), (300 : ℚ)), direction := .horizontal, state := .red }] [] =
      { Vehicle.init 250 350 .right .car with stopped := true, waiting_time := 1 } ∧
    ((Vehicle.init 0 350 .right .car).move [] []).x - (Vehicle.init 0 350 .right .car).x = 3 := by
  constructor
  · exact (move_stop_or_advance (Vehicle.init 250 350 .right .car) _ []).1
      (by norm_num [Vehicle.should_stop, Vehicle.stops_for, Vehicle.init])
  · exact (move_stop_or_advance (Vehicle.init 0 350 .right .car) [] []).2 (by decide)
      |>.2.2.1

end TrafficSim
